import Mathlib

/-!
Shallow embedding of the parse-apply-watch reconciliation driver of
kpt-config-sync (package `parse`, file `run.go`): the functions `run`,
`read`, `readFromSource`, `parseSource`, `parseAndUpdate`, `setSyncStatus`,
`updateSyncStatusPeriodically` and `reportRootSyncConflicts`.

External collaborators (source reader, hydration done-marker, file loader,
parser, applier, status publisher, conflict writer) are modelled by an
environment record `Env` whose fields give the outcome of each collaborator
call.  Each embedded function returns its result, the updated reconciler
state, and the list of collaborator calls it performed (`Event`), in
program order.
-/

namespace ConfigSync

abbrev Commit := String

abbrev Time := Nat

abbrev Obj := Nat

/-- A management-conflict error (`status.ManagementConflictError`):
carries the name of the conflicting manager and an identifying payload. -/
structure MCE where
  conflictingManager : String := ""
  code : Nat := 0
deriving DecidableEq

/-- An error value as classified by the `status` package: transient and
blocking classification bits, an optional management-conflict payload for
errors that are `status.ManagementConflictError`, and an identifying code. -/
structure CsError where
  transient : Bool := false
  blocking : Bool := false
  mce : Option MCE := none
  code : Nat := 0
deriving DecidableEq

/-- `status.MultiError`; the empty list stands for Go `nil`. -/
abbrev MultiErr := List CsError

/-- `status.Append(m, err)` for a `MultiError` and a single (possibly nil)
error: a nil error leaves the multi-error unchanged. -/
def errAppend (m : MultiErr) (e : Option CsError) : MultiErr :=
  m ++ e.toList

/-- `status.Append(m1, m2)` for two `MultiError` values. -/
def multiAppend (m1 m2 : MultiErr) : MultiErr :=
  m1 ++ m2

/-- Modelled from the spec: `status.HasTransientErrors` (the `status`
package is not in scope) — transient errors are the ones retryable without
user action and never published. -/
def HasTransientErrors (m : MultiErr) : Bool :=
  m.any (·.transient)

/-- Modelled from the spec: `status.HasBlockingErrors` (the `status`
package is not in scope) — parse errors are blocking when apply must be
skipped. -/
def HasBlockingErrors (m : MultiErr) : Bool :=
  m.any (·.blocking)

/-- `status.InternalHydrationError` wrapping an OS error identified by
`osCode`. -/
def internalHydrationError (osCode : Nat) : CsError :=
  { code := osCode }

/-- The trigger constants of `run.go`. -/
def triggerResync : String := "resync"

def triggerReimport : String := "reimport"

def triggerRetry : String := "retry"

def triggerManagementConflict : String := "managementConflict"

def triggerWatchUpdate : String := "watchUpdate"

/-- RenderingInProgress means that the configs are still being rendered. -/
def RenderingInProgress : String := "Rendering is still in progress"

/-- RenderingSucceeded means that the configs have been rendered successfully. -/
def RenderingSucceeded : String := "Rendering succeeded"

/-- RenderingFailed means that the configs have failed to be rendered. -/
def RenderingFailed : String := "Rendering failed"

/-- RenderingSkipped means that the configs don't need to be rendered. -/
def RenderingSkipped : String := "Rendering skipped"

/-- Modelled from the spec: `declared.RootReconciler`, the scope value of
the cluster-root reconciler (the `declared` package is not in scope). -/
def RootReconciler : String := ":root"

/-- Modelled from the spec: the capacity denominator passed to
`prependRootSyncRemediatorStatus`; its concrete value is not in scope and
is irrelevant to the claims. -/
def defaultDenominator : Nat := 2

/-- `sourceState`: the cached source snapshot `{commit, syncDir, files}`. -/
structure SourceState where
  commit : Commit := ""
  syncDir : String := ""
  files : List String := []
deriving DecidableEq

/-- `renderingStatus`: the rendering sub-status published to the RSync. -/
structure RenderingStatus where
  message : String := ""
  commit : Commit := ""
  errs : MultiErr := []
  lastUpdate : Time := 0
deriving DecidableEq

/-- `sourceStatus`: the source sub-status published to the RSync. -/
structure SourceStatus where
  commit : Commit := ""
  errs : MultiErr := []
  lastUpdate : Time := 0
deriving DecidableEq

/-- `syncStatus`: the sync sub-status published to the RSync. -/
structure SyncStatus where
  syncing : Bool := false
  commit : Commit := ""
  errs : MultiErr := []
  lastUpdate : Time := 0
deriving DecidableEq

/-- Modelled from the spec: the per-commit cache held by the reconciler
state (`state.go` is not in scope) — the source snapshot, the parser
result with its up-to-date flag, the retry flag and the recorded errors. -/
structure CacheForCommit where
  source : SourceState := {}
  hasParserResult : Bool := false
  objs : List Obj := []
  parserErrs : MultiErr := []
  needToRetry : Bool := false
  errs : MultiErr := []
deriving DecidableEq

/-- `reconcilerState`: owned by the run loop; the cache plus the last
successfully published statuses. -/
structure ReconcilerState where
  cache : CacheForCommit := {}
  sourceStatus : SourceStatus := {}
  renderingStatus : RenderingStatus := {}
  syncStatus : SyncStatus := {}
  syncingConditionLastUpdate : Time := 0
deriving DecidableEq

/-- Modelled from the spec: `resetCache()` clears the source snapshot and
the parser result. -/
def ReconcilerState.resetCache (st : ReconcilerState) : ReconcilerState :=
  { st with cache := {} }

/-- Modelled from the spec: `reset()` clears the reconciler's cached state
before a new rendering attempt. -/
def ReconcilerState.reset (st : ReconcilerState) : ReconcilerState :=
  { st with cache := {} }

/-- Modelled from the spec: `invalidate(errs)` marks that a retry is
needed and records the pass's errors. -/
def ReconcilerState.invalidate (st : ReconcilerState) (errs : MultiErr) : ReconcilerState :=
  { st with cache := { st.cache with needToRetry := true, errs := errs } }

/-- Modelled from the spec: `checkpoint()` marks the pass as fully
succeeded and clears the retry flag. -/
def ReconcilerState.checkpoint (st : ReconcilerState) : ReconcilerState :=
  { st with cache := { st.cache with needToRetry := false } }

/-- Modelled from the spec: a source-status write is skipped when the new
value is equivalent (same commit and errors) to the last published one. -/
def ReconcilerState.needToSetSourceStatus (st : ReconcilerState) (new : SourceStatus) : Bool :=
  !(decide (new.commit = st.sourceStatus.commit ∧ new.errs = st.sourceStatus.errs))

/-- Modelled from the spec: a sync-status write is skipped when the new
value is equivalent (same commit, syncing flag and errors) to the last
published one. -/
def ReconcilerState.needToSetSyncStatus (st : ReconcilerState) (new : SyncStatus) : Bool :=
  !(decide (new.commit = st.syncStatus.commit ∧ new.syncing = st.syncStatus.syncing ∧
      new.errs = st.syncStatus.errs))

/-- Modelled from the spec: `parserResultUpToDate()` — whether the cached
parser result is still valid for the cached source. -/
def CacheForCommit.parserResultUpToDate (c : CacheForCommit) : Bool :=
  c.hasParserResult

/-- Modelled from the spec: `setParserResult(objs, errs)` stores the parse
outcome and marks it up to date. -/
def ReconcilerState.setParserResult (st : ReconcilerState) (objs : List Obj)
    (errs : MultiErr) : ReconcilerState :=
  { st with cache := { st.cache with hasParserResult := true, objs := objs, parserErrs := errs } }

/-- A collaborator call performed by the driver, recorded in program
order. -/
inductive Event where
  | setSourceStatusCall (s : SourceStatus) (ok : Bool)
  | setRenderingStatusCall (oldS newS : RenderingStatus) (ok : Bool)
  | setSyncStatusCall (s : SyncStatus) (ok : Bool)
  | parseSourceCall (src : SourceState)
  | readConfigFilesCall (src : SourceState)
  | readHydratedDirCall
  | updateCall
  | startPeriodicSyncTask
  | cancelPeriodicSyncTask
  | prependRootSyncCall (name : String) (errs : List MCE) (denominator : Nat)
  | webhookUpdateCall
deriving DecidableEq

/-- Outcome of an `os.Stat` call. -/
inductive StatResult where
  | ok
  | notExist
  | otherErr (osCode : Nat)
deriving DecidableEq

/-- The environment: outcomes of every external collaborator call a single
pass can make. -/
structure Env where
  sourceCommit : Commit := ""
  sourceSyncDir : String := ""
  sourceErrs : MultiErr := []
  doneFileStat : StatResult := .ok
  doneCommit : Commit := ""
  hydratedRootValid : Bool := true
  hydratedRootErr : Nat := 0
  hydratedStat : StatResult := .notExist
  readHydratedDirResult : Except CsError SourceState := .ok {}
  readConfigFilesErrs : SourceState → MultiErr := fun _ => []
  readConfigFilesFiles : SourceState → List String := fun _ => []
  parseSourceResult : SourceState → List Obj × MultiErr := fun _ => ([], [])
  setSourceStatusErr : SourceStatus → Option CsError := fun _ => none
  setRenderingStatusErr : RenderingStatus → RenderingStatus → Option CsError := fun _ _ => none
  setSyncStatusErr : SyncStatus → Option CsError := fun _ => none
  updateResult : CacheForCommit → MultiErr := fun _ => []
  conflictingManagerError : MCE → MCE := id
  scopeAndName : String → String × String := fun m => (m, m)
  prependRootSyncErr : String → List MCE → Nat → Option CsError := fun _ _ _ => none
  now : Time := 0

/-- Result of `readFromSource`: the rendering status, the source status,
the updated state and the calls performed. -/
structure ReadOut where
  hyd : RenderingStatus
  src : SourceStatus
  state : ReconcilerState
  trace : List Event
deriving DecidableEq

/-- Result of a phase returning a `status.MultiError`. -/
structure ErrOut where
  errs : MultiErr
  state : ReconcilerState
  trace : List Event
deriving DecidableEq

/-- The tail of `readFromSource` (run.go lines 323-339), shared by the
hydrated and the raw read path: if the sync directory is unchanged the
cache is current; otherwise reset the cache, read all config files under
`ss`, and set `state.cache.source` only when the read succeeded. -/
def readFromSourceTail (env : Env) (st : ReconcilerState) (hyd : RenderingStatus)
    (srcStat : SourceStatus) (ss : SourceState) (tr0 : List Event) : ReadOut :=
  if ss.syncDir = st.cache.source.syncDir then
    { hyd := hyd, src := srcStat, state := st, trace := tr0 }
  else
    let st1 := st.resetCache
    let errs := env.readConfigFilesErrs ss
    let ssFilled := { ss with files := env.readConfigFilesFiles ss }
    let st2 := if errs = [] then { st1 with cache := { st1.cache with source := ssFilled } } else st1
    { hyd := hyd, src := { srcStat with errs := errs }, state := st2,
      trace := tr0 ++ [.readConfigFilesCall ss] }

/-- `readFromSource`: reads the source or hydrated configs and returns the
rendering status and source status (run.go lines 286-340). -/
def readFromSource (env : Env) (st : ReconcilerState) (ps : SourceState) : ReadOut :=
  let hydrationStatus : RenderingStatus := { commit := ps.commit }
  let srcStatus : SourceStatus := { commit := ps.commit }
  if !env.hydratedRootValid then
    let hydFailed := { hydrationStatus with
      message := RenderingFailed,
      errs := [internalHydrationError env.hydratedRootErr] }
    { hyd := hydFailed, src := srcStatus, state := st, trace := [] }
  else
    match env.hydratedStat with
    | .ok =>
      match env.readHydratedDirResult with
      | .error he =>
        let hydFailed := { hydrationStatus with message := RenderingFailed, errs := [he] }
        { hyd := hydFailed, src := srcStatus, state := st, trace := [.readHydratedDirCall] }
      | .ok newSS =>
        readFromSourceTail env st { hydrationStatus with message := RenderingSucceeded }
          srcStatus newSS [.readHydratedDirCall]
    | .otherErr os =>
      let hydFailed := { hydrationStatus with
        message := RenderingFailed,
        errs := [internalHydrationError os] }
      { hyd := hydFailed, src := srcStatus, state := st, trace := [] }
    | .notExist =>
      readFromSourceTail env st { hydrationStatus with message := RenderingSkipped }
        srcStatus ps []

/-- `read`: reads config files and updates `.status.rendering` and
`.status.source` (run.go lines 239-281).  In the Go source the write error
of `setSourceStatus` is bound with `:=` inside the `if`, shadowing the
outer `setSourceStatusErr`, which therefore stays nil in the returned
multi-error; the embedding mirrors that. -/
def read (env : Env) (st : ReconcilerState) (ps : SourceState) : ErrOut :=
  let r := readFromSource env st ps
  if HasTransientErrors r.hyd.errs then
    { errs := r.hyd.errs, state := r.state, trace := r.trace }
  else if HasTransientErrors r.src.errs then
    { errs := r.src.errs, state := r.state, trace := r.trace }
  else
    let hyd := { r.hyd with lastUpdate := env.now }
    let setRenderingStatusErr := env.setRenderingStatusErr r.state.renderingStatus hyd
    let tr := r.trace ++ [.setRenderingStatusCall r.state.renderingStatus hyd setRenderingStatusErr.isNone]
    let st1 := if setRenderingStatusErr.isNone then
        { r.state with renderingStatus := hyd, syncingConditionLastUpdate := hyd.lastUpdate }
      else r.state
    let renderingErrs := errAppend hyd.errs setRenderingStatusErr
    if renderingErrs ≠ [] then
      { errs := renderingErrs, state := st1, trace := tr }
    else if r.src.errs = [] then
      { errs := [], state := st1, trace := tr }
    else
      let srcStat := { r.src with lastUpdate := env.now }
      let setSourceStatusErrOuter : Option CsError := none
      if st1.needToSetSourceStatus srcStat then
        let setSourceStatusErrInner := env.setSourceStatusErr srcStat
        let tr2 := tr ++ [.setSourceStatusCall srcStat setSourceStatusErrInner.isNone]
        let st2 := if setSourceStatusErrInner.isNone then
            { st1 with sourceStatus := srcStat, syncingConditionLastUpdate := srcStat.lastUpdate }
          else st1
        { errs := errAppend srcStat.errs setSourceStatusErrOuter, state := st2, trace := tr2 }
      else
        { errs := errAppend srcStat.errs setSourceStatusErrOuter, state := st1, trace := tr }

/-- `parseSource`: parses the cached source unless the parser result is up
to date; on a non-blocking result the admission webhook is updated
best-effort (run.go lines 342-367). -/
def parseSource (env : Env) (st : ReconcilerState) : ErrOut :=
  if st.cache.parserResultUpToDate then
    { errs := [], state := st, trace := [] }
  else
    let pr := env.parseSourceResult st.cache.source
    let st1 := st.setParserResult pr.1 pr.2
    if !HasBlockingErrors pr.2 then
      { errs := pr.2, state := st1, trace := [.parseSourceCall st.cache.source, .webhookUpdateCall] }
    else
      { errs := pr.2, state := st1, trace := [.parseSourceCall st.cache.source] }

/-- Groups conflict errors by conflicting manager, in first-encounter
order, mapping each to its `ConflictingManagerError()`. -/
def insertGroup : List (String × List MCE) → String → MCE → List (String × List MCE)
  | [], k, v => [(k, [v])]
  | (k', vs) :: rest, k, v =>
    if k' = k then (k', vs ++ [v]) :: rest else (k', vs) :: insertGroup rest k v

/-- The `conflictingManagerErrors` map of `reportRootSyncConflicts`
(run.go lines 482-487), as an insertion-ordered association list. -/
def groupConflicts (env : Env) (l : List MCE) : List (String × List MCE) :=
  l.foldl (fun acc e => insertGroup acc e.conflictingManager (env.conflictingManagerError e)) []

/-- The per-group loop of `reportRootSyncConflicts` (run.go lines
489-504): a group whose manager scope is the root reconciler is reported
via `prependRootSyncRemediatorStatus` (aborting on failure); any other
group is logged only. -/
def reportGroups (env : Env) : List (String × List MCE) → Option CsError × List Event
  | [] => (none, [])
  | (mgr, errsGrp) :: rest =>
    let sn := env.scopeAndName mgr
    if sn.1 = RootReconciler then
      match env.prependRootSyncErr sn.2 errsGrp defaultDenominator with
      | some e => (some e, [.prependRootSyncCall sn.2 errsGrp defaultDenominator])
      | none =>
        let r := reportGroups env rest
        (r.1, .prependRootSyncCall sn.2 errsGrp defaultDenominator :: r.2)
    else
      reportGroups env rest

/-- `reportRootSyncConflicts`: reports conflicts to the RootSync that
manages the conflicting resources (run.go lines 478-506). -/
def reportRootSyncConflicts (env : Env) (conflictErrs : List MCE) : Option CsError × List Event :=
  if conflictErrs = [] then (none, [])
  else reportGroups env (groupConflicts env conflictErrs)

/-- Result of the driver's `setSyncStatus` helper. -/
structure SyncOut where
  err : Option CsError
  state : ReconcilerState
  trace : List Event
deriving DecidableEq

/-- The tail of the driver's `setSyncStatus` (run.go lines 435-448):
extract the management-conflict errors from the sync errors and report
them. -/
def setSyncStatusTail (env : Env) (st : ReconcilerState) (syncErrs : MultiErr)
    (tr : List Event) : SyncOut :=
  let conflictErrs := syncErrs.filterMap (·.mce)
  let r := reportRootSyncConflicts env conflictErrs
  { err := r.1, state := st, trace := tr ++ r.2 }

/-- The driver's `setSyncStatus` helper: updates `.status.sync` and the
Syncing condition if needed, then routes conflict errors (run.go lines
419-449). -/
def setSyncStatus (env : Env) (st : ReconcilerState) (syncing : Bool)
    (syncErrs : MultiErr) : SyncOut :=
  let newSyncStatus : SyncStatus :=
    { syncing := syncing, commit := st.cache.source.commit, errs := syncErrs,
      lastUpdate := env.now }
  if st.needToSetSyncStatus newSyncStatus then
    match env.setSyncStatusErr newSyncStatus with
    | some e => { err := some e, state := st, trace := [.setSyncStatusCall newSyncStatus false] }
    | none =>
      let st1 := { st with
        syncStatus := newSyncStatus,
        syncingConditionLastUpdate := newSyncStatus.lastUpdate }
      setSyncStatusTail env st1 syncErrs [.setSyncStatusCall newSyncStatus true]
  else
    setSyncStatusTail env st syncErrs []

/-- The apply stage of `parseAndUpdate` (run.go lines 394-413): start the
periodic sync-status task, invoke the Applier's `Update`, cancel the
periodic task, then write the final sync status with `syncing=false`. -/
def parseAndUpdateTail (env : Env) (st : ReconcilerState) (sourceErrs : MultiErr)
    (tr : List Event) : ErrOut :=
  if HasBlockingErrors sourceErrs then
    { errs := sourceErrs, state := st, trace := tr }
  else
    let syncErrs := env.updateResult st.cache
    let tr1 := tr ++ [.startPeriodicSyncTask, .updateCall, .cancelPeriodicSyncTask]
    let so := setSyncStatus env st false syncErrs
    let syncErrs1 := errAppend syncErrs so.err
    { errs := multiAppend sourceErrs syncErrs1, state := so.state, trace := tr1 ++ so.trace }

/-- `parseAndUpdate`: parse the source, publish the source status, and —
unless the source-status write failed or the parse errors are blocking —
run the apply stage (run.go lines 369-414). -/
def parseAndUpdate (env : Env) (st : ReconcilerState) : ErrOut :=
  let pr := parseSource env st
  let newSourceStatus : SourceStatus :=
    { commit := pr.state.cache.source.commit, errs := pr.errs, lastUpdate := env.now }
  if pr.state.needToSetSourceStatus newSourceStatus then
    match env.setSourceStatusErr newSourceStatus with
    | some e =>
      { errs := errAppend pr.errs (some e), state := pr.state,
        trace := pr.trace ++ [.setSourceStatusCall newSourceStatus false] }
    | none =>
      let st1 := { pr.state with
        sourceStatus := newSourceStatus,
        syncingConditionLastUpdate := newSourceStatus.lastUpdate }
      parseAndUpdateTail env st1 pr.errs
        (pr.trace ++ [.setSourceStatusCall newSourceStatus true])
  else
    parseAndUpdateTail env pr.state pr.errs pr.trace

/-- The rendering-in-progress branch of `run` (run.go lines 175-189):
publish `RenderingInProgress` for the current commit; on success reset the
state, otherwise invalidate. -/
def runRenderingInProgress (env : Env) (st : ReconcilerState)
    (commit : Commit) : ReconcilerState × List Event :=
  let rs : RenderingStatus :=
    { commit := commit, message := RenderingInProgress, lastUpdate := env.now }
  let serr := env.setRenderingStatusErr st.renderingStatus rs
  let tr := [Event.setRenderingStatusCall st.renderingStatus rs serr.isNone]
  if serr.isNone then
    let st1 := st.reset
    ({ st1 with renderingStatus := rs, syncingConditionLastUpdate := rs.lastUpdate }, tr)
  else
    (st.invalidate (errAppend [] serr), tr)

/-- The post-render-gate part of `run` (run.go lines 204-235): read,
early-exit on an unchanged sync directory under the `reimport` trigger,
parse-and-update, and checkpoint only when everything succeeded. -/
def runAfterGate (env : Env) (trigger : String) (st : ReconcilerState)
    (commit : Commit) (syncDir : String) : ReconcilerState × List Event :=
  let oldSyncDir := st.cache.source.syncDir
  let ps : SourceState := { commit := commit, syncDir := syncDir }
  let ro := read env st ps
  if ro.errs ≠ [] then
    (ro.state.invalidate ro.errs, ro.trace)
  else
    let newSyncDir := ro.state.cache.source.syncDir
    if trigger = triggerReimport ∧ oldSyncDir = newSyncDir then
      (ro.state, ro.trace)
    else
      let po := parseAndUpdate env ro.state
      if po.errs ≠ [] then
        (po.state.invalidate po.errs, ro.trace ++ po.trace)
      else
        (po.state.checkpoint, ro.trace ++ po.trace)

/-- One reconciliation pass (run.go lines 145-235): resolve the source
commit and directory, publish early source failures, evaluate the
done-marker render gate, then read, parse and apply. -/
def run (env : Env) (trigger : String) (st : ReconcilerState) : ReconcilerState × List Event :=
  if env.sourceErrs ≠ [] then
    let gs : SourceStatus :=
      { commit := env.sourceCommit, errs := env.sourceErrs, lastUpdate := env.now }
    if st.needToSetSourceStatus gs then
      let serr := env.setSourceStatusErr gs
      let tr := [Event.setSourceStatusCall gs serr.isNone]
      let st1 := if serr.isNone then
          { st with sourceStatus := gs, syncingConditionLastUpdate := gs.lastUpdate }
        else st
      (st1.invalidate (errAppend env.sourceErrs serr), tr)
    else
      (st.invalidate (errAppend env.sourceErrs none), [])
  else
    match env.doneFileStat with
    | .notExist => runRenderingInProgress env st env.sourceCommit
    | .ok =>
      if env.doneCommit ≠ env.sourceCommit then
        runRenderingInProgress env st env.sourceCommit
      else
        runAfterGate env trigger st env.sourceCommit env.sourceSyncDir
    | .otherErr os =>
      let rs : RenderingStatus :=
        { commit := env.sourceCommit, message := RenderingFailed, lastUpdate := env.now,
          errs := [internalHydrationError os] }
      let serr := env.setRenderingStatusErr st.renderingStatus rs
      let tr := [Event.setRenderingStatusCall st.renderingStatus rs serr.isNone]
      let st1 := if serr.isNone then
          { st with renderingStatus := rs, syncingConditionLastUpdate := rs.lastUpdate }
        else st
      (st1.invalidate (errAppend rs.errs serr), tr)

/-!
Interleaving model for the post-`Update` window of `parseAndUpdate`
together with the `updateSyncStatusPeriodically` goroutine (run.go lines
394-411 and 453-474).  The driver's remaining program is `cancel();
setSyncStatus(...)`; the goroutine loops on a select between the cancelled
context's done channel and the status-update timer, and a write taken from
the timer branch runs to completion regardless of the driver.  A schedule
is the list of moves the two threads take.
-/

/-- Globally observable events of the post-`Update` window. -/
inductive PEvent where
  | cancelEv
  | finalWriteEv
  | periodicWriteEv
  | taskStoppedEv
deriving DecidableEq

/-- Where the periodic task is: at its select, inside a sync-status write,
or returned. -/
inductive TaskPhase where
  | idle
  | writing
  | stopped
deriving DecidableEq

/-- Joint state of the driver (after `Update` returned) and the periodic
sync-status task. -/
structure ConcState where
  driverPc : Nat := 0
  task : TaskPhase := .idle
  ctxDone : Bool := false
deriving DecidableEq

/-- A scheduler move: one step of the driver, or the periodic task taking
its timer branch, finishing its write, or taking its done branch. -/
inductive Move where
  | driverStep
  | taskSelectTimer
  | taskFinishWrite
  | taskSelectDone
deriving DecidableEq

/-- One interleaving step.  The driver first cancels the task's context,
then performs its final sync-status write.  The task may enter a write
from the timer branch while the context is not yet cancelled, finish an
in-flight write at any time, and return once it selects the done branch of
the cancelled context. -/
def concStep (s : ConcState) (m : Move) : ConcState × List PEvent :=
  match m with
  | .driverStep =>
    if s.driverPc = 0 then ({ s with driverPc := 1, ctxDone := true }, [.cancelEv])
    else if s.driverPc = 1 then ({ s with driverPc := 2 }, [.finalWriteEv])
    else (s, [])
  | .taskSelectTimer =>
    if s.task = .idle ∧ ¬s.ctxDone then ({ s with task := .writing }, []) else (s, [])
  | .taskFinishWrite =>
    if s.task = .writing then ({ s with task := .idle }, [.periodicWriteEv]) else (s, [])
  | .taskSelectDone =>
    if s.task = .idle ∧ s.ctxDone then ({ s with task := .stopped }, [.taskStoppedEv]) else (s, [])

/-- The event trace produced by running a schedule from a state. -/
def runSched (s : ConcState) : List Move → List PEvent
  | [] => []
  | m :: ms =>
    let r := concStep s m
    r.2 ++ runSched r.1 ms

/-- Holds when no periodic sync-status write occurs after the driver's
final post-apply write. -/
def noPeriodicAfterFinal : List PEvent → Bool
  | [] => true
  | .finalWriteEv :: rest => rest.all (fun e => decide (e ≠ .periodicWriteEv))
  | _ :: rest => noPeriodicAfterFinal rest

/-- Holds when, before the first cancellation event, the trace contains
neither the driver's final write nor the task's termination. -/
def cancelPrecedes : List PEvent → Bool
  | [] => true
  | .cancelEv :: _ => true
  | .finalWriteEv :: _ => false
  | .taskStoppedEv :: _ => false
  | .periodicWriteEv :: rest => cancelPrecedes rest

/-- The event is an invocation of the parser collaborator. -/
def Event.isParseEvent : Event → Bool
  | .parseSourceCall _ => true
  | _ => false

/-- The event belongs to the apply stage: starting the periodic
sync-status task or invoking the Applier's `Update`. -/
def Event.isApplyStageEvent : Event → Bool
  | .updateCall => true
  | .startPeriodicSyncTask => true
  | _ => false

/-- The event is a sync-status write on the RSync. -/
def Event.isSyncStatusWriteEvent : Event → Bool
  | .setSyncStatusCall _ _ => true
  | _ => false

/-- The event is any status write on the RSync. -/
def Event.isStatusWriteEvent : Event → Bool
  | .setSourceStatusCall _ _ => true
  | .setRenderingStatusCall _ _ _ => true
  | .setSyncStatusCall _ _ => true
  | _ => false

/-- The source status that `parseAndUpdate` builds after parsing
(run.go lines 373-377). -/
def newSourceStatusOf (env : Env) (st : ReconcilerState) : SourceStatus :=
  { commit := (parseSource env st).state.cache.source.commit,
    errs := (parseSource env st).errs, lastUpdate := env.now }

/-- The rendering status that `run` publishes while hydration is still in
progress (run.go lines 176-177). -/
def inProgressStatusOf (env : Env) : RenderingStatus :=
  { commit := env.sourceCommit, message := RenderingInProgress, lastUpdate := env.now }

theorem parseSource_trace_all (env : Env) (st : ReconcilerState) (p : Event → Bool)
    (h1 : ∀ s, p (.parseSourceCall s) = true) (h2 : p .webhookUpdateCall = true) :
    (parseSource env st).trace.all p = true := by
  unfold parseSource
  dsimp only
  split
  · simp
  · split <;> simp [h1, h2]

theorem readFromSourceTail_trace_all (env : Env) (st : ReconcilerState)
    (hyd : RenderingStatus) (srcStat : SourceStatus) (ss : SourceState) (tr0 : List Event)
    (p : Event → Bool) (h0 : tr0.all p = true) (h1 : ∀ s, p (.readConfigFilesCall s) = true) :
    (readFromSourceTail env st hyd srcStat ss tr0).trace.all p = true := by
  unfold readFromSourceTail
  dsimp only
  split
  · simpa using h0
  · simp only [List.all_append, List.all_cons, List.all_nil]
    simp [h0, h1]

theorem readFromSource_trace_all (env : Env) (st : ReconcilerState) (ps : SourceState)
    (p : Event → Bool) (h0 : p .readHydratedDirCall = true)
    (h1 : ∀ s, p (.readConfigFilesCall s) = true) :
    (readFromSource env st ps).trace.all p = true := by
  unfold readFromSource
  dsimp only
  split
  · simp
  · split
    · split
      · simp [h0]
      · exact readFromSourceTail_trace_all _ _ _ _ _ _ p (by simp [h0]) h1
    · simp
    · exact readFromSourceTail_trace_all _ _ _ _ _ _ p (by simp) h1

theorem read_trace_all (env : Env) (st : ReconcilerState) (ps : SourceState)
    (p : Event → Bool) (h0 : p .readHydratedDirCall = true)
    (h1 : ∀ s, p (.readConfigFilesCall s) = true)
    (h2 : ∀ a b c, p (.setRenderingStatusCall a b c) = true)
    (h3 : ∀ s k, p (.setSourceStatusCall s k) = true) :
    (read env st ps).trace.all p = true := by
  have hr := readFromSource_trace_all env st ps p h0 h1
  unfold read
  dsimp only
  split
  · exact hr
  · split
    · exact hr
    · repeat' split
      all_goals simp [List.all_append, hr, h2, h3]

/-- Claim C1: in every pass that reaches the parse stage, if the
source-status write performed after parsing fails, `parseAndUpdate`
terminates immediately with the parse errors plus the write error: the
Applier's `Update` is not invoked, the periodic task is not started, and
no sync status is written, so the published sync commit cannot overtake
the published source commit. -/
theorem parseAndUpdate_aborts_when_setSourceStatus_fails
    (env : Env) (st : ReconcilerState) (e : CsError)
    (hneed : (parseSource env st).state.needToSetSourceStatus (newSourceStatusOf env st) = true)
    (hfail : env.setSourceStatusErr (newSourceStatusOf env st) = some e) :
    (parseAndUpdate env st).errs = errAppend (parseSource env st).errs (some e) ∧
    (parseAndUpdate env st).state = (parseSource env st).state ∧
    (parseAndUpdate env st).trace.all
      (fun ev => !(ev.isApplyStageEvent || ev.isSyncStatusWriteEvent)) = true := by
  have hd : ({ commit := (parseSource env st).state.cache.source.commit,
               errs := (parseSource env st).errs, lastUpdate := env.now } : SourceStatus)
      = newSourceStatusOf env st := rfl
  have hall := parseSource_trace_all env st
    (fun ev => !(ev.isApplyStageEvent || ev.isSyncStatusWriteEvent))
    (fun _ => rfl) rfl
  unfold parseAndUpdate
  dsimp only
  rw [hd, hneed, hfail]
  simp only [if_true]
  refine ⟨by trivial, by trivial, ?_⟩
  simp only [List.all_append, hall, Bool.true_and, List.all_cons, List.all_nil, Bool.and_true]
  rfl

/-- Witness for C1 at a concrete input: the cached commit "c3" differs
from the published one, the write fails, and the pass stops without
invoking apply. -/
theorem parseAndUpdate_aborts_when_setSourceStatus_fails_witness :
    ((parseSource { setSourceStatusErr := fun _ => some { code := 9 } }
        { cache := { source := { commit := "c3" } } }).state.needToSetSourceStatus
      (newSourceStatusOf { setSourceStatusErr := fun _ => some { code := 9 } }
        { cache := { source := { commit := "c3" } } }) = true) ∧
    ((parseAndUpdate { setSourceStatusErr := fun _ => some { code := 9 } }
        { cache := { source := { commit := "c3" } } }).trace.all
      (fun ev => !(ev.isApplyStageEvent || ev.isSyncStatusWriteEvent)) = true) := by
  refine ⟨by decide, ?_⟩
  exact (parseAndUpdate_aborts_when_setSourceStatus_fails
    { setSourceStatusErr := fun _ => some { code := 9 } }
    { cache := { source := { commit := "c3" } } }
    { code := 9 } (by decide) (by decide)).2.2

/-- Claim C2: when `parseSource` returns blocking source errors, the new
source status carrying them is published (it differs from the last
published value and the write succeeds), and the pass stops before
starting the periodic sync-status task and before invoking the Applier's
`Update`. -/
theorem parseAndUpdate_blocking_parse_errors_stop_before_apply
    (env : Env) (st : ReconcilerState)
    (hblock : HasBlockingErrors (parseSource env st).errs = true)
    (hneed : (parseSource env st).state.needToSetSourceStatus (newSourceStatusOf env st) = true)
    (hok : env.setSourceStatusErr (newSourceStatusOf env st) = none) :
    (parseAndUpdate env st).errs = (parseSource env st).errs ∧
    (parseAndUpdate env st).state.sourceStatus = newSourceStatusOf env st ∧
    Event.setSourceStatusCall (newSourceStatusOf env st) true ∈ (parseAndUpdate env st).trace ∧
    (parseAndUpdate env st).trace.all
      (fun ev => !(ev.isApplyStageEvent || ev.isSyncStatusWriteEvent)) = true := by
  have hd : ({ commit := (parseSource env st).state.cache.source.commit,
               errs := (parseSource env st).errs, lastUpdate := env.now } : SourceStatus)
      = newSourceStatusOf env st := rfl
  have hall := parseSource_trace_all env st
    (fun ev => !(ev.isApplyStageEvent || ev.isSyncStatusWriteEvent))
    (fun _ => rfl) rfl
  unfold parseAndUpdate
  dsimp only
  rw [hd, hneed, hok]
  unfold parseAndUpdateTail
  dsimp only
  rw [hblock]
  simp only [if_true]
  refine ⟨by trivial, by trivial, ?_, ?_⟩
  · simp
  · simp only [List.all_append, hall, Bool.true_and, List.all_cons, List.all_nil, Bool.and_true]
    rfl

/-- Witness for C2 at a concrete input: a blocking parse error on commit
"c3" is published and the pass stops before apply. -/
theorem parseAndUpdate_blocking_parse_errors_stop_before_apply_witness :
    (HasBlockingErrors (parseSource
        { parseSourceResult := fun _ => ([], [{ blocking := true }]) }
        { cache := { source := { commit := "c3" } } }).errs = true) ∧
    ((parseAndUpdate { parseSourceResult := fun _ => ([], [{ blocking := true }]) }
        { cache := { source := { commit := "c3" } } }).trace.all
      (fun ev => !(ev.isApplyStageEvent || ev.isSyncStatusWriteEvent)) = true) := by
  refine ⟨by decide, ?_⟩
  exact (parseAndUpdate_blocking_parse_errors_stop_before_apply
    { parseSourceResult := fun _ => ([], [{ blocking := true }]) }
    { cache := { source := { commit := "c3" } } }
    (by decide) (by decide) (by decide)).2.2.2

/-- Claim C3: a pass triggered by `reimport` that reaches the read phase
and whose read leaves the cached sync directory unchanged returns without
invoking the parser or the Applier. -/
theorem run_reimport_unchanged_syncDir_skips_parse_and_apply
    (env : Env) (st : ReconcilerState)
    (hsrc : env.sourceErrs = [])
    (hstat : env.doneFileStat = .ok)
    (hdone : env.doneCommit = env.sourceCommit)
    (hsync : (read env st { commit := env.sourceCommit, syncDir := env.sourceSyncDir }).state.cache.source.syncDir
      = st.cache.source.syncDir) :
    (run env triggerReimport st).2.all
      (fun ev => !(ev.isParseEvent || ev.isApplyStageEvent)) = true := by
  have hall := read_trace_all env st { commit := env.sourceCommit, syncDir := env.sourceSyncDir }
    (fun ev => !(ev.isParseEvent || ev.isApplyStageEvent))
    rfl (fun _ => rfl) (fun _ _ _ => rfl) (fun _ _ => rfl)
  unfold run
  rw [hsrc, hstat]
  simp only [ne_eq, not_true_eq_false, if_false, hdone, ite_not, if_pos rfl]
  unfold runAfterGate
  dsimp only
  split
  · exact hall
  · split
    · exact hall
    · rename_i hcond
      exact absurd ⟨rfl, hsync.symm⟩ hcond

/-- Witness for C3 at a concrete input: commit "c1" is already cached for
the unchanged sync directory, so the reimport pass performs no parse and
no apply. -/
theorem run_reimport_unchanged_syncDir_skips_parse_and_apply_witness :
    ((read { sourceCommit := "c1", sourceSyncDir := "/src/c1", doneCommit := "c1" }
        { cache := { source := { commit := "c1", syncDir := "/src/c1" } } }
        { commit := "c1", syncDir := "/src/c1" }).state.cache.source.syncDir
      = ({ cache := { source := { commit := "c1", syncDir := "/src/c1" } } } :
          ReconcilerState).cache.source.syncDir) ∧
    ((run { sourceCommit := "c1", sourceSyncDir := "/src/c1", doneCommit := "c1" }
        triggerReimport
        { cache := { source := { commit := "c1", syncDir := "/src/c1" } } }).2.all
      (fun ev => !(ev.isParseEvent || ev.isApplyStageEvent)) = true) := by
  refine ⟨by decide, ?_⟩
  exact run_reimport_unchanged_syncDir_skips_parse_and_apply
    { sourceCommit := "c1", sourceSyncDir := "/src/c1", doneCommit := "c1" }
    { cache := { source := { commit := "c1", syncDir := "/src/c1" } } }
    (by decide) (by decide) (by decide) (by decide)

/-- Claim C4: when the done-marker is absent, or present but recording a
commit different from the current one, the pass publishes a rendering
status with message `RenderingInProgress` for the current commit, resets
the reconciler state, and returns with no further calls — in particular
without parsing or applying. -/
theorem run_rendering_in_progress_resets_and_returns
    (env : Env) (trigger : String) (st : ReconcilerState)
    (hsrc : env.sourceErrs = [])
    (hgate : env.doneFileStat = .notExist ∨
      (env.doneFileStat = .ok ∧ env.doneCommit ≠ env.sourceCommit))
    (hpub : env.setRenderingStatusErr st.renderingStatus (inProgressStatusOf env) = none) :
    run env trigger st =
      ({ st with
          cache := {},
          renderingStatus := inProgressStatusOf env,
          syncingConditionLastUpdate := env.now },
        [Event.setRenderingStatusCall st.renderingStatus (inProgressStatusOf env) true]) := by
  have hgoal : runRenderingInProgress env st env.sourceCommit =
      ({ st with
          cache := {},
          renderingStatus := inProgressStatusOf env,
          syncingConditionLastUpdate := env.now },
        [Event.setRenderingStatusCall st.renderingStatus (inProgressStatusOf env) true]) := by
    have hd : ({ commit := env.sourceCommit, message := RenderingInProgress,
                 lastUpdate := env.now } : RenderingStatus) = inProgressStatusOf env := rfl
    unfold runRenderingInProgress
    dsimp only
    rw [hd, hpub]
    rfl
  unfold run
  rw [hsrc]
  rcases hgate with hne | ⟨hok, h15⟩
  · rw [hne]
    simpa using hgoal
  · rw [hok]
    simp only [ne_eq, not_true_eq_false, if_false, if_pos h15]
    simpa using hgoal

/-- Witness for C4 at a concrete input: the marker records "c0" while the
current commit is "c1"; the pass publishes `RenderingInProgress` for "c1"
and resets the state. -/
theorem run_rendering_in_progress_resets_and_returns_witness :
    (({ sourceCommit := "c1", doneCommit := "c0", now := 3 } : Env).doneFileStat = .notExist ∨
      (({ sourceCommit := "c1", doneCommit := "c0", now := 3 } : Env).doneFileStat = .ok ∧
        ({ sourceCommit := "c1", doneCommit := "c0", now := 3 } : Env).doneCommit ≠ "c1")) ∧
    run { sourceCommit := "c1", doneCommit := "c0", now := 3 } triggerReimport
        { cache := { source := { commit := "c1", syncDir := "/src/c1" } } } =
      ({ cache := {},
          renderingStatus := inProgressStatusOf { sourceCommit := "c1", doneCommit := "c0", now := 3 },
          syncingConditionLastUpdate := 3 },
        [Event.setRenderingStatusCall ({} : ReconcilerState).renderingStatus
          (inProgressStatusOf { sourceCommit := "c1", doneCommit := "c0", now := 3 }) true]) := by
  refine ⟨by decide, ?_⟩
  exact run_rendering_in_progress_resets_and_returns
    { sourceCommit := "c1", doneCommit := "c0", now := 3 } triggerReimport
    { cache := { source := { commit := "c1", syncDir := "/src/c1" } } }
    (by decide) (by decide) (by decide)

/-- Claim C5: when `readFromSource` returns errors classified transient —
in the rendering status or in the source status — `read` returns those
errors without performing any rendering-, source- or sync-status write, so
transient errors are never published to the RSync status. -/
theorem read_transient_errors_not_published
    (env : Env) (st : ReconcilerState) (ps : SourceState)
    (h : HasTransientErrors (readFromSource env st ps).hyd.errs = true ∨
         HasTransientErrors (readFromSource env st ps).src.errs = true) :
    (read env st ps).errs =
      (if HasTransientErrors (readFromSource env st ps).hyd.errs then
        (readFromSource env st ps).hyd.errs
      else (readFromSource env st ps).src.errs) ∧
    (read env st ps).trace.all (fun ev => !ev.isStatusWriteEvent) = true := by
  have hall := readFromSource_trace_all env st ps
    (fun ev => !ev.isStatusWriteEvent) rfl (fun _ => rfl)
  unfold read
  dsimp only
  split
  · exact ⟨rfl, hall⟩
  · rename_i hcond
    split
    · exact ⟨rfl, hall⟩
    · rename_i hcond2
      rcases h with h1 | h2
      · exact absurd h1 hcond
      · exact absurd h2 hcond2

/-- Witness for C5 at a concrete input: a transient file-read error on a
new sync directory is returned by `read` with no status write in the
trace. -/
theorem read_transient_errors_not_published_witness :
    (HasTransientErrors (readFromSource
        { readConfigFilesErrs := fun _ => [{ transient := true }] } {}
        { commit := "c9", syncDir := "/s" }).src.errs = true) ∧
    ((read { readConfigFilesErrs := fun _ => [{ transient := true }] } {}
        { commit := "c9", syncDir := "/s" }).trace.all
      (fun ev => !ev.isStatusWriteEvent) = true) := by
  refine ⟨by decide, ?_⟩
  exact (read_transient_errors_not_published
    { readConfigFilesErrs := fun _ => [{ transient := true }] } {}
    { commit := "c9", syncDir := "/s" } (Or.inr (by decide))).2

theorem reportGroups_all_ok (env : Env)
    (hok : ∀ n es, env.prependRootSyncErr n es defaultDenominator = none) :
    ∀ gs : List (String × List MCE),
      reportGroups env gs =
        (none, gs.filterMap (fun g =>
          if (env.scopeAndName g.1).1 = RootReconciler then
            some (Event.prependRootSyncCall (env.scopeAndName g.1).2 g.2 defaultDenominator)
          else none)) := by
  intro gs
  induction gs with
  | nil => rfl
  | cons g rest ih =>
    obtain ⟨mgr, errsGrp⟩ := g
    unfold reportGroups
    dsimp only
    split
    · rename_i hroot
      rw [hok _ _]
      dsimp only
      rw [ih]
      simp [List.filterMap_cons, hroot]
    · rename_i hroot
      rw [ih]
      simp [List.filterMap_cons, hroot]

/-- Claim C6: conflict errors are grouped by conflicting manager; when the
conflict writes all succeed, each group whose manager scope is the root
reconciler produces exactly one `prependRootSyncRemediatorStatus` call
against that manager's RootSync with the group's errors and the default
denominator, every other group is logged only and contributes no call, and
no error is returned to the caller. -/
theorem reportRootSyncConflicts_prepends_only_root_groups
    (env : Env) (conflictErrs : List MCE)
    (hok : ∀ n es, env.prependRootSyncErr n es defaultDenominator = none) :
    reportRootSyncConflicts env conflictErrs =
      (none, (groupConflicts env conflictErrs).filterMap (fun g =>
        if (env.scopeAndName g.1).1 = RootReconciler then
          some (Event.prependRootSyncCall (env.scopeAndName g.1).2 g.2 defaultDenominator)
        else none)) := by
  unfold reportRootSyncConflicts
  split
  · rename_i hnil
    rw [hnil]
    rfl
  · exact reportGroups_all_ok env hok _

/-- Witness for C6 at a concrete input: two conflicts against the RootSync
manager "root-b" and one against a namespaced manager produce a single
prepend call for "root-b" carrying the grouped errors, and nothing for the
namespaced group. -/
theorem reportRootSyncConflicts_prepends_only_root_groups_witness :
    reportRootSyncConflicts
        { scopeAndName := fun m =>
            if m = "root-reconciler-b" then (RootReconciler, "root-b") else ("bookstore", m) }
        [ { conflictingManager := "root-reconciler-b", code := 1 },
          { conflictingManager := "ns-reconciler-bookstore", code := 2 },
          { conflictingManager := "root-reconciler-b", code := 3 } ] =
      (none,
        (groupConflicts
          { scopeAndName := fun m =>
              if m = "root-reconciler-b" then (RootReconciler, "root-b") else ("bookstore", m) }
          [ { conflictingManager := "root-reconciler-b", code := 1 },
            { conflictingManager := "ns-reconciler-bookstore", code := 2 },
            { conflictingManager := "root-reconciler-b", code := 3 } ]).filterMap (fun g =>
          if (({ scopeAndName := fun m =>
              if m = "root-reconciler-b" then (RootReconciler, "root-b") else ("bookstore", m) } :
                Env).scopeAndName g.1).1 = RootReconciler then
            some (Event.prependRootSyncCall
              (({ scopeAndName := fun m =>
                if m = "root-reconciler-b" then (RootReconciler, "root-b") else ("bookstore", m) } :
                  Env).scopeAndName g.1).2 g.2 defaultDenominator)
          else none)) :=
  reportRootSyncConflicts_prepends_only_root_groups
    { scopeAndName := fun m =>
        if m = "root-reconciler-b" then (RootReconciler, "root-b") else ("bookstore", m) }
    [ { conflictingManager := "root-reconciler-b", code := 1 },
      { conflictingManager := "ns-reconciler-bookstore", code := 2 },
      { conflictingManager := "root-reconciler-b", code := 3 } ]
    (fun _ _ => rfl)

/-- Claim C7 counterexample: it is not true that in every interleaving the
periodic sync-status task has terminated — or even stopped writing —
before the driver's post-Apply sync-status write.  The schedule below lets
the task enter a periodic write just before the driver cancels; the write
completes after the driver's final write. -/
theorem periodic_write_may_follow_final_write :
    ¬ ∀ ms : List Move, noPeriodicAfterFinal (runSched {} ms) = true := by
  intro hclaim
  exact absurd
    (hclaim [.taskSelectTimer, .driverStep, .driverStep, .taskFinishWrite, .taskSelectDone])
    (by decide)

theorem cancelPrecedes_runSched_aux :
    ∀ (ms : List Move) (s : ConcState),
      s.driverPc = 0 → s.ctxDone = false → cancelPrecedes (runSched s ms) = true := by
  intro ms
  induction ms with
  | nil => intro s _ _; rfl
  | cons m rest ih =>
    intro s h1 h2
    cases m with
    | driverStep =>
      unfold runSched concStep
      dsimp only
      rw [if_pos h1]
      simp [cancelPrecedes]
    | taskSelectTimer =>
      unfold runSched concStep
      dsimp only
      split
      · simpa using ih { s with task := .writing } h1 h2
      · simpa using ih s h1 h2
    | taskFinishWrite =>
      unfold runSched concStep
      dsimp only
      split
      · simpa [cancelPrecedes] using ih { s with task := .idle } h1 h2
      · simpa using ih s h1 h2
    | taskSelectDone =>
      unfold runSched concStep
      dsimp only
      split
      · rename_i hcond
        rw [h2] at hcond
        exact absurd hcond.2 (by simp)
      · simpa using ih s h1 h2

/-- Claim C7 (amended): for every Apply invocation, the driver issues the
periodic task's cancellation before its post-Apply sync-status write, and
the task terminates only after that cancellation; in every interleaving
from the post-`Update` state, neither the final write nor the task's
termination precedes the cancellation.  (The task is not joined, so — per
the counterexample — it may still complete a write after the final
write.) -/
theorem driver_cancels_before_final_write_and_task_stop :
    ∀ ms : List Move, cancelPrecedes (runSched {} ms) = true :=
  fun ms => cancelPrecedes_runSched_aux ms {} rfl rfl

/-- Claim C8: when the done-marker check passed, the hydrated root is a
valid absolute path but the hydrated directory does not exist, the
rendering status message is `RenderingSkipped` with no error, and the
declared files are read from the raw source directory `ps`. -/
theorem readFromSource_hydrated_dir_absent_skips_rendering
    (env : Env) (st : ReconcilerState) (ps : SourceState)
    (hvalid : env.hydratedRootValid = true)
    (hstat : env.hydratedStat = .notExist)
    (hchange : ps.syncDir ≠ st.cache.source.syncDir) :
    (readFromSource env st ps).hyd.message = RenderingSkipped ∧
    (readFromSource env st ps).hyd.errs = [] ∧
    (readFromSource env st ps).trace = [.readConfigFilesCall ps] := by
  unfold readFromSource
  dsimp only
  rw [hvalid, hstat]
  simp only [Bool.not_true, Bool.false_eq_true, if_false]
  unfold readFromSourceTail
  dsimp only
  rw [if_neg hchange]
  exact ⟨rfl, rfl, rfl⟩

/-- Witness for C8 at a concrete input: the hydrated directory is absent
and the raw directory "/src/c1" has not been read yet; the rendering is
skipped and the raw files are read. -/
theorem readFromSource_hydrated_dir_absent_skips_rendering_witness :
    (({} : Env).hydratedStat = .notExist) ∧
    (readFromSource {} {} { commit := "c1", syncDir := "/src/c1" }).hyd.message
      = RenderingSkipped ∧
    (readFromSource {} {} { commit := "c1", syncDir := "/src/c1" }).hyd.errs = [] ∧
    (readFromSource {} {} { commit := "c1", syncDir := "/src/c1" }).trace
      = [.readConfigFilesCall { commit := "c1", syncDir := "/src/c1" }] := by
  refine ⟨by decide, ?_⟩
  exact readFromSource_hydrated_dir_absent_skips_rendering {} {}
    { commit := "c1", syncDir := "/src/c1" } (by decide) (by decide) (by decide)

/-- A concrete pass for the source-status write-failure analysis of
`read`: the raw read returns one non-transient source error and every
source-status write fails. -/
def envC9 : Env :=
  { sourceCommit := "c2", sourceSyncDir := "/src/c2", doneCommit := "c2",
    readConfigFilesErrs := fun _ => [{ code := 7 }],
    setSourceStatusErr := fun _ => some { code := 99 }, now := 5 }

/-- The source snapshot read in the `envC9` pass. -/
def psC9 : SourceState := { commit := "c2", syncDir := "/src/c2" }

/-- Claim C9: at the concrete failing input `envC9`, `read` attempts the
source-status write — which fails — yet its returned multi-error contains
only the source error and not the write failure (error code 99 is
dropped): in the Go source the write error is bound with `:=` inside the
`if`, shadowing the outer variable that is appended to the result. -/
theorem read_drops_failed_sourceStatus_write_error :
    (read envC9 {} psC9).errs = [{ code := 7 }] ∧
    Event.setSourceStatusCall { commit := "c2", errs := [{ code := 7 }], lastUpdate := 5 } false
      ∈ (read envC9 {} psC9).trace := by
  decide

/-- Claim C10: on a read of a new sync directory, the cached source is
assigned the newly read source state only when `readConfigFiles` returns
no error; on failure the cache keeps the cleared value left by
`resetCache`, so the next pass sees a sync-directory change and re-reads.
Stated on `readFromSourceTail`, the shared tail both read paths of
`readFromSource` funnel through. -/
theorem readFromSource_sets_cache_only_when_read_succeeds
    (env : Env) (st : ReconcilerState) (hyd : RenderingStatus) (srcStat : SourceStatus)
    (ss : SourceState) (tr0 : List Event)
    (hchange : ss.syncDir ≠ st.cache.source.syncDir) :
    (env.readConfigFilesErrs ss = [] →
      (readFromSourceTail env st hyd srcStat ss tr0).state.cache.source =
        { ss with files := env.readConfigFilesFiles ss }) ∧
    (env.readConfigFilesErrs ss ≠ [] →
      (readFromSourceTail env st hyd srcStat ss tr0).state.cache = st.resetCache.cache) ∧
    (readFromSourceTail env st hyd srcStat ss tr0).src.errs = env.readConfigFilesErrs ss := by
  unfold readFromSourceTail
  dsimp only
  rw [if_neg hchange]
  refine ⟨?_, ?_, rfl⟩
  · intro hnil
    rw [if_pos hnil]
  · intro hne
    rw [if_neg hne]

/-- Witness for C10 at a concrete input: the file read of "/src/c4" fails,
and the cache stays at the cleared value. -/
theorem readFromSource_sets_cache_only_when_read_succeeds_witness :
    (({ commit := "c4", syncDir := "/src/c4" } : SourceState).syncDir
      ≠ ({} : ReconcilerState).cache.source.syncDir) ∧
    ((readFromSourceTail { readConfigFilesErrs := fun _ => [{ code := 4 }] } {} {} {}
        { commit := "c4", syncDir := "/src/c4" } []).state.cache
      = ({} : ReconcilerState).resetCache.cache) := by
  refine ⟨by decide, ?_⟩
  exact (readFromSource_sets_cache_only_when_read_succeeds
    { readConfigFilesErrs := fun _ => [{ code := 4 }] } {} {} {}
    { commit := "c4", syncDir := "/src/c4" } [] (by decide)).2.1 (by decide)

end ConfigSync
